import Mathlib

/-!
Verification development for the PPT designer questionnaire backend
(`webapp/api/index.py`).  The Python module is shallowly embedded:
Python numbers used by the scoring code become `ℚ`, dictionaries become
association lists with last-write-wins insertion, and code that can raise
an exception returns an `Option`.
-/

/-- A recorded answer value (the Python code stores arbitrary JSON-ish
values; strings, booleans, integers and lists cover everything the
endpoints accept). -/
inductive Value where
  | vstr (s : String)
  | vbool (b : Bool)
  | vnum (n : Int)
  | vlist (l : List String)
deriving DecidableEq

/-- Python truthiness for a stored answer value (`bool(v)`), used by
`calculate_profile_score` via `response.get('response')`. -/
def Value.truthy : Value → Bool
  | .vstr s => s != ""
  | .vbool b => b
  | .vnum n => n != 0
  | .vlist l => !l.isEmpty

/-- Python equality of a candidate value `v` against a string constant
`t`; only a string equal to `t` compares true. -/
def Value.eqStr : Value → String → Bool
  | .vstr s, t => s == t
  | _, _ => false

/-- Python's `str.lower()` on the basic latin range, applied character by
character (matches CPython on ASCII data, which is all the code compares). -/
def pyLower (s : String) : String := String.mk (s.data.map Char.toLower)

/-- Helper for splitting on dots: accumulate characters until each dot. -/
def pySplitAux : List Char → List Char → List String
  | [], acc => [String.mk acc.reverse]
  | c :: cs, acc =>
    if c = '.' then String.mk acc.reverse :: pySplitAux cs [] else pySplitAux cs (c :: acc)

/-- Python dot-splitting of a string. -/
def pySplitDots (s : String) : List String := pySplitAux s.data []

/-- Python dot-joining of string parts. -/
def joinDots : List String → String
  | [] => ""
  | [s] => s
  | s :: rest => s ++ "." ++ joinDots rest

/-- The two-segment dotted prefix of a question id, as computed in
`calculate_profile_score`. -/
def prefix2 (s : String) : String := joinDots ((pySplitDots s).take 2)

/-- A stored user response, one entry of `self.user_responses` as written
by `submit_response`. -/
structure UserResponse where
  question_id : String
  response : Value
  additional_details : Option String
  timestamp : Nat
deriving DecidableEq

/-- The response ledger `self.user_responses`: a Python dict embedded as an
association list in insertion order. -/
abbrev Ledger := List (String × UserResponse)

/-- Python dict lookup on a string-keyed dict. -/
def pyDictGet {α : Type} : List (String × α) → String → Option α
  | [], _ => none
  | (k', v) :: rest, k => if k' = k then some v else pyDictGet rest k

/-- Python dict assignment: overwrite in place, else append (dict insertion
order semantics). -/
def pyDictSet {α : Type} : List (String × α) → String → α → List (String × α)
  | [], k, v => [(k, v)]
  | (k', v') :: rest, k, v =>
    if k' = k then (k, v) :: rest else (k', v') :: pyDictSet rest k v

/-- Embeds `PPTDesignerSystem.submit_response`: always stores the entry under the
question id and returns `True`.  The current time is passed explicitly. -/
def submit_response (l : Ledger) (question_id : String) (response : Value)
    (additional_details : Option String) (now : Nat) : Bool × Ledger :=
  (true, pyDictSet l question_id
    { question_id := question_id, response := response,
      additional_details := additional_details, timestamp := now })

/-- A configured question record; the fields the scoring code reads
(`question_id`, `weight`, `required`). -/
structure Question where
  question_id : String
  weight : Int
  required : Bool
deriving DecidableEq

/-- One entry of the implementation-roadmap table; every field is read
with a `.get` default, so each is optional. -/
structure Roadmap where
  steps : Option (List String)
  resources : Option String
  customization_level : Option String
deriving DecidableEq

/-- A configuration section: its `strategic_questions` list and the
`implementation_roadmaps` table (present only on the phase-5 section). -/
structure SectionCfg where
  strategic_questions : List Question
  implementation_roadmaps : Option (List (String × Roadmap))
deriving DecidableEq

/-- A configuration phase: its ordered sections. -/
structure PhaseCfg where
  sections : List SectionCfg
deriving DecidableEq

/-- The six fixed profile categories of `calculate_profile_score`. -/
inductive Category where
  | content_goals
  | audience_context
  | design_preferences
  | technical_requirements
  | timeline_resources
  | scalability
deriving DecidableEq, Fintype

/-- The static configuration document (`ppt_designer_system.json`):
ordered phases plus the `scoring_system.weight_distribution` per-category
maximum table. -/
structure Config where
  workflow_phases : List PhaseCfg
  weight_distribution : Category → ℚ

/-- Embeds `PPTDesignerSystem.get_all_questions`: flatten phases → sections →
questions in order. -/
def get_all_questions (cfg : Config) : List Question :=
  ((cfg.workflow_phases.map
    (fun ph => (ph.sections.map SectionCfg.strategic_questions).flatten)).flatten)

/-- Embeds `PPTDesignerSystem._find_question`: first configured question with the
given id, in traversal order. -/
def find_question (cfg : Config) (question_id : String) : Option Question :=
  (get_all_questions cfg).find? (fun q => q.question_id == question_id)

/-- The hardcoded eleven-entry `category_mapping` table. -/
def category_mapping (p : String) : Option Category :=
  if p = "q1.1" then some .content_goals
  else if p = "q1.2" then some .audience_context
  else if p = "q1.3" then some .design_preferences
  else if p = "q2.1" then some .design_preferences
  else if p = "q2.2" then some .technical_requirements
  else if p = "q3.1" then some .content_goals
  else if p = "q3.2" then some .audience_context
  else if p = "q4.1" then some .technical_requirements
  else if p = "q4.2" then some .technical_requirements
  else if p = "q5.1" then some .timeline_resources
  else if p = "q5.2" then some .scalability
  else none

/-- The loop body of `calculate_profile_score`: one ledger item updates
the running per-category totals. -/
def profileStep (cfg : Config) (scores : Category → ℚ) (p : String × UserResponse) :
    Category → ℚ :=
  match category_mapping (prefix2 p.1) with
  | some cat =>
    if p.2.response.truthy then
      match find_question cfg p.1 with
      | some q => fun c => if c = cat then scores c + (q.weight : ℚ) / 10 else scores c
      | none => scores
    else scores
  | none => scores

/-- Embeds `PPTDesignerSystem.calculate_profile_score`: accumulate weighted
contributions over the ledger, then double and clamp per category. -/
def calculate_profile_score (cfg : Config) (l : Ledger) : Category → ℚ :=
  fun c => min ((l.foldl (profileStep cfg) (fun _ => 0)) c * 2) (cfg.weight_distribution c)

/-- The contribution of one ledger item to one category, written as the
specification describes it: `question.weight / 10` when the answer is
truthy and the two-segment prefix maps to this category (the weight being
that of the configured question found by `_find_question`). -/
def profileContribution (cfg : Config) (c : Category) (p : String × UserResponse) : ℚ :=
  if category_mapping (prefix2 p.1) = some c ∧ p.2.response.truthy = true then
    match find_question cfg p.1 with
    | some q => (q.weight : ℚ) / 10
    | none => 0
  else 0

/-- The profile score as the specification states it: per category, twice
the sum of the contributions, clamped at the configured maximum. -/
def spec_profile_score (cfg : Config) (l : Ledger) (c : Category) : ℚ :=
  min (2 * (l.map (profileContribution cfg c)).sum) (cfg.weight_distribution c)

/-- A catalog template (the fields `calculate_template_match_score` and
`generate_recommendations` read). -/
structure Template where
  name : String
  url : String
  style_tags : List String
  color_schemes : List String
  suitable_for : List String
  compatible_versions : List String
  pros : List String
  cons : List String
  difficulty : Option String
  preview_image : Option String
deriving DecidableEq

/-- The style-match factor: 25 when the lowercased `q2.1.1` answer is
among the template's style tags.  `.lower()` raises on a non-string
answer, hence the `Option`. -/
def style_match_factor (l : Ledger) (t : Template) : Option ℚ :=
  match pyDictGet l "q2.1.1" with
  | none => some 0
  | some e =>
    match e.response with
    | .vstr s => some (if t.style_tags.contains (pyLower s) then 25 else 0)
    | _ => none

/-- The color-match factor: 20 when the raw `q1.3.2` answer is among the
template's color schemes. -/
def color_match_factor (l : Ledger) (t : Template) : ℚ :=
  match pyDictGet l "q1.3.2" with
  | none => 0
  | some e => if t.color_schemes.any (fun s => e.response.eqStr s) then 20 else 0

/-- The functionality-match factor: 30 when the raw `q1.1.1` answer is
among the template's `suitable_for` entries. -/
def functionality_match_factor (l : Ledger) (t : Template) : ℚ :=
  match pyDictGet l "q1.1.1" with
  | none => 0
  | some e => if t.suitable_for.any (fun s => e.response.eqStr s) then 30 else 0

/-- The technical-compatibility factor: 25 when the raw `q2.2.1` answer
is among the template's compatible versions. -/
def technical_compatibility_factor (l : Ledger) (t : Template) : ℚ :=
  match pyDictGet l "q2.2.1" with
  | none => 0
  | some e => if t.compatible_versions.any (fun s => e.response.eqStr s) then 25 else 0

/-- Embeds `PPTDesignerSystem.calculate_template_match_score`: the sum of the
four factors clamped at 100 (`none` when the style check raises). -/
def calculate_template_match_score (l : Ledger) (t : Template) : Option ℚ :=
  match style_match_factor l t with
  | none => none
  | some s =>
    some (min (s + color_match_factor l t + functionality_match_factor l t +
      technical_compatibility_factor l t) 100)

/-- One generated recommendation record (the dict built inside
`generate_recommendations`). -/
structure Recommendation where
  template_name : String
  template_url : String
  match_score : ℚ
  style_tags : List String
  pros : List String
  cons : List String
  customization_difficulty : String
  preview_image : Option String
deriving DecidableEq

/-- Build the recommendation dict for one template (fails when the match
score computation raises). -/
def buildRecommendation (l : Ledger) (t : Template) : Option Recommendation :=
  match calculate_template_match_score l t with
  | none => none
  | some sc => some
    { template_name := t.name, template_url := t.url, match_score := sc,
      style_tags := t.style_tags, pros := t.pros, cons := t.cons,
      customization_difficulty := t.difficulty.getD "medium",
      preview_image := t.preview_image }

/-- Build the recommendation list over the whole catalog, in catalog
order. -/
def buildRecommendations (l : Ledger) : List Template → Option (List Recommendation)
  | [] => some []
  | t :: ts =>
    match buildRecommendation l t, buildRecommendations l ts with
    | some r, some rs => some (r :: rs)
    | _, _ => none

/-- Stable descending insertion by `match_score` (an earlier element stays
before a later one of equal score).  Extensionally this is Python's
stable `list.sort(key=..., reverse=True)`. -/
def insertByScoreDesc (r : Recommendation) : List Recommendation → List Recommendation
  | [] => [r]
  | r' :: rest =>
    if r'.match_score ≤ r.match_score then r :: r' :: rest
    else r' :: insertByScoreDesc r rest

/-- Stable sort of the recommendation list by descending `match_score`. -/
def sortByScoreDesc (l : List Recommendation) : List Recommendation :=
  l.foldr insertByScoreDesc []

/-- Embeds `PPTDesignerSystem.generate_recommendations`: score every catalog
template, sort descending (stably), store the full ranked list in
`self.recommendations` (second component) and return the top 10 (first
component). -/
def generate_recommendations (l : Ledger) (templates_database : List Template) :
    Option (List Recommendation × List Recommendation) :=
  match buildRecommendations l templates_database with
  | none => none
  | some recs =>
    let sorted := sortByScoreDesc recs
    some (sorted.take 10, sorted)

/-- The implementation plan dict; `customization_level` is absent (`none`)
until the roadmap branch sets it. -/
structure Plan where
  timeline : Value
  experience_level : Value
  phases : List String
  resources_needed : List String
  estimated_hours : ℚ
  customization_level : Option String
deriving DecidableEq

/-- The three-entry timeline-to-roadmap key table of
`generate_implementation_plan`, with its `.get(..., 'standard_timeline_1week')`
fallback.  Python's `dict.get` hashes the key first: a list-valued answer
is unhashable and raises `TypeError`, hence the `Option`; any other
recorded value not among the three literals yields the standard
fallback key. -/
def timelineKey : Value → Option String
  | .vlist _ => none
  | v =>
    if v = .vstr "1일" then some "tight_timeline_1day"
    else if v = .vstr "1주" then some "standard_timeline_1week"
    else if v = .vstr "1개월" then some "extended_timeline_1month"
    else some "standard_timeline_1week"

/-- Embeds `PPTDesignerSystem.generate_implementation_plan`.  When a timeline
response exists the code first computes the timeline key (`dict.get`
raises on an unhashable list-valued answer) and then reads
`config['workflow_phases'][4]['sections'][0]['implementation_roadmaps']`;
a missing index or key there raises too, hence the `Option`. -/
def generate_implementation_plan (cfg : Config) (l : Ledger) : Option Plan :=
  let timeline := pyDictGet l "q5.1.1"
  let experience := pyDictGet l "q5.1.2"
  let base : Plan :=
    { timeline := match timeline with | some e => e.response | none => .vstr "1주",
      experience_level := match experience with | some e => e.response | none => .vstr "중급자",
      phases := [], resources_needed := [], estimated_hours := 0,
      customization_level := none }
  match timeline with
  | none => some base
  | some e =>
    match timelineKey e.response with
    | none => none
    | some key =>
      match cfg.workflow_phases.get? 4 with
      | none => none
      | some ph =>
        match ph.sections.get? 0 with
        | none => none
        | some sec =>
          match sec.implementation_roadmaps with
          | none => none
          | some table =>
            let rm := (pyDictGet table key).getD
              { steps := none, resources := none, customization_level := none }
            some { base with
              phases := rm.steps.getD [],
              resources_needed := [rm.resources.getD ""],
              customization_level := some (rm.customization_level.getD "moderate") }

/-- The required-question list of `get_progress_percentage`. -/
def required_questions (cfg : Config) : List Question :=
  (get_all_questions cfg).filter (fun q => q.required)

/-- The answered-required count of `get_progress_percentage`
(`q['question_id'] in self.user_responses`). -/
def answered_required (cfg : Config) (l : Ledger) : Nat :=
  ((required_questions cfg).filter (fun q => (pyDictGet l q.question_id).isSome)).length

/-- Embeds `PPTDesignerSystem.get_progress_percentage`. -/
def get_progress_percentage (cfg : Config) (l : Ledger) : ℚ :=
  if (required_questions cfg).length = 0 then 100
  else ((answered_required cfg l : ℚ) / ((required_questions cfg).length : ℚ)) * 100

/-- Embeds the `POST /api/responses` route body: status code, the `success`
flag, and the ledger afterwards.  `400` exactly on
`not question_id or response is None`. -/
def submit_response_route (question_id : Option String) (response : Option Value)
    (additional_details : Option String) (now : Nat) (l : Ledger) :
    Nat × Bool × Ledger :=
  match question_id, response with
  | some qid, some v =>
    if qid = "" then (400, false, l)
    else
      let r := submit_response l qid v additional_details now
      (200, r.1, r.2)
  | _, _ => (400, false, l)

/-- The mock template catalog from the source module. -/
def MOCK_TEMPLATES : List Template :=
  [{ name := "Minimal Beige Professional",
     url := "https://example.com/template1",
     style_tags := ["minimal", "modern", "professional"],
     color_schemes := ["beige_orange"],
     suitable_for := ["교육", "정보 전달"],
     compatible_versions := ["2019", "2021", "Microsoft 365"],
     pros := ["깔끔한 디자인", "쉬운 편집", "다양한 레이아웃"],
     cons := ["애니메이션 제한적"],
     difficulty := some "easy",
     preview_image := some "https://example.com/preview1.jpg" },
   { name := "Modern Education Template",
     url := "https://example.com/template2",
     style_tags := ["modern", "creative", "educational"],
     color_schemes := ["beige_orange", "blue_gray"],
     suitable_for := ["교육", "발표"],
     compatible_versions := ["2016", "2019", "2021", "Microsoft 365"],
     pros := ["학생 친화적", "시각적 요소 풍부", "접근성 우수"],
     cons := ["파일 크기 큼"],
     difficulty := some "medium",
     preview_image := some "https://example.com/preview2.jpg" }]

/-- A small concrete configuration used to exercise the theorems: one
phase holding two required questions. -/
def sampleConfig : Config :=
  { workflow_phases :=
      [{ sections :=
          [{ strategic_questions :=
              [{ question_id := "q1.1.1", weight := 40, required := true },
               { question_id := "q5.1.1", weight := 20, required := true }],
             implementation_roadmaps := none }] }],
    weight_distribution := fun _ => 10 }

/-- A concrete roadmap table with all three timeline buckets. -/
def cfgC3RoadmapTable : List (String × Roadmap) :=
  [("tight_timeline_1day",
    { steps := some ["긴급 구조", "빠른 디자인"], resources := some "집중 작업",
      customization_level := some "minimal" }),
   ("standard_timeline_1week",
    { steps := some ["구조 설계", "디자인"], resources := some "기본 리소스",
      customization_level := some "moderate" }),
   ("extended_timeline_1month",
    { steps := some ["심화 기획", "반복 개선", "최종 검수"], resources := some "전체 리소스",
      customization_level := some "high" })]

/-- The fifth-phase section carrying the roadmap table. -/
def cfgC3Sec : SectionCfg :=
  { strategic_questions := [], implementation_roadmaps := some cfgC3RoadmapTable }

/-- The fifth phase of `cfgC3`. -/
def cfgC3Phase5 : PhaseCfg := { sections := [cfgC3Sec] }

/-- A concrete configuration with five phases whose fifth phase carries
the three implementation roadmaps. -/
def cfgC3 : Config :=
  { workflow_phases :=
      [{ sections := [] }, { sections := [] }, { sections := [] }, { sections := [] },
       cfgC3Phase5],
    weight_distribution := fun _ => 10 }

/-- The timeline entry (question `q5.1.1`) answering "1일". -/
def tlEntry : UserResponse :=
  { question_id := "q5.1.1", response := .vstr "1일",
    additional_details := none, timestamp := 3 }

/-- A ledger holding only the "1일" timeline answer. -/
def timelineLedger : Ledger := [("q5.1.1", tlEntry)]

/-- The experience value the plan reports: the `q5.1.2` answer if
recorded, else the literal default. -/
def expDefault (l : Ledger) : Value :=
  match pyDictGet l "q5.1.2" with
  | some e => e.response
  | none => .vstr "중급자"

/-- The roadmap the plan uses for a given roadmap key: the table entry
under that key, or the empty roadmap when the key is absent. -/
def roadmapFor (table : List (String × Roadmap)) (key : String) : Roadmap :=
  (pyDictGet table key).getD
    { steps := none, resources := none, customization_level := none }

/-- A concrete ledger answering both `sampleConfig` questions. -/
def sampleLedger : Ledger :=
  [("q1.1.1", { question_id := "q1.1.1", response := .vstr "교육",
                additional_details := none, timestamp := 1 }),
   ("q5.1.1", { question_id := "q5.1.1", response := .vstr "1주",
                additional_details := none, timestamp := 2 })]

/-- A concrete ledger satisfying all four template-match checks for the
first mock template. -/
def fullMatchLedger : Ledger :=
  [("q2.1.1", { question_id := "q2.1.1", response := .vstr "Minimal",
                additional_details := none, timestamp := 1 }),
   ("q1.3.2", { question_id := "q1.3.2", response := .vstr "beige_orange",
                additional_details := none, timestamp := 2 }),
   ("q1.1.1", { question_id := "q1.1.1", response := .vstr "교육",
                additional_details := none, timestamp := 3 }),
   ("q2.2.1", { question_id := "q2.2.1", response := .vstr "2021",
                additional_details := none, timestamp := 4 })]

/-- A one-entry ledger whose single key is none of the four
template-match question ids. -/
def unrelatedLedger : Ledger :=
  [("q9.9.9", { question_id := "q9.9.9", response := .vstr "기타",
                additional_details := none, timestamp := 7 })]

/-- A template whose every style tag contains an uppercase letter. -/
def upperTagTemplate : Template :=
  { name := "Upper", url := "https://example.com/upper",
    style_tags := ["ALLCAPS", "Mixed"], color_schemes := [], suitable_for := [],
    compatible_versions := [], pros := [], cons := [], difficulty := none,
    preview_image := none }

/-- The style answer entry stored in `upperLedger`. -/
def upperAnswerEntry : UserResponse :=
  { question_id := "q2.1.1", response := .vstr "allcaps",
    additional_details := none, timestamp := 1 }

/-- A ledger answering the style question with the all-lowercase string
"allcaps". -/
def upperLedger : Ledger := [("q2.1.1", upperAnswerEntry)]

/-- The recommendation list the empty ledger produces over
`MOCK_TEMPLATES`: both templates score 0, in catalog order. -/
def mockRecsEmpty : List Recommendation :=
  [{ template_name := "Minimal Beige Professional",
     template_url := "https://example.com/template1", match_score := 0,
     style_tags := ["minimal", "modern", "professional"],
     pros := ["깔끔한 디자인", "쉬운 편집", "다양한 레이아웃"],
     cons := ["애니메이션 제한적"], customization_difficulty := "easy",
     preview_image := some "https://example.com/preview1.jpg" },
   { template_name := "Modern Education Template",
     template_url := "https://example.com/template2", match_score := 0,
     style_tags := ["modern", "creative", "educational"],
     pros := ["학생 친화적", "시각적 요소 풍부", "접근성 우수"],
     cons := ["파일 크기 큼"], customization_difficulty := "medium",
     preview_image := some "https://example.com/preview2.jpg" }]

/-- The fold of `calculate_profile_score` evaluates, per category, to the
starting value plus the sum of the per-item contributions. -/
lemma foldl_profileStep (cfg : Config) (l : Ledger) (s : Category → ℚ) (c : Category) :
    (l.foldl (profileStep cfg) s) c = s c + (l.map (profileContribution cfg c)).sum := by
  induction l generalizing s with
  | nil => simp
  | cons p rest ih =>
    rw [List.foldl_cons, ih, List.map_cons, List.sum_cons]
    have hstep : profileStep cfg s p c = s c + profileContribution cfg c p := by
      unfold profileStep profileContribution
      cases hm : category_mapping (prefix2 p.1) with
      | none => simp [hm]
      | some cat =>
        cases ht : p.2.response.truthy with
        | false => simp [ht]
        | true =>
          cases hf : find_question cfg p.1 with
          | none => simp [hf]
          | some q =>
            by_cases hc : c = cat
            · subst hc; simp [hf]
            · simp [hf, hc]
              intro h
              exact absurd h.symm hc
    rw [hstep]
    ring

/-- `calculate_profile_score` agrees with its specification-shaped
restatement. -/
lemma calculate_profile_score_eq_spec (cfg : Config) (l : Ledger) (c : Category) :
    calculate_profile_score cfg l c = spec_profile_score cfg l c := by
  unfold calculate_profile_score spec_profile_score
  rw [foldl_profileStep]
  have : (0 + (l.map (profileContribution cfg c)).sum) * 2
      = 2 * (l.map (profileContribution cfg c)).sum := by ring
  rw [this]

lemma profileContribution_nonneg (cfg : Config) (c : Category) (p : String × UserResponse)
    (hw : ∀ q ∈ get_all_questions cfg, 0 ≤ q.weight) :
    0 ≤ profileContribution cfg c p := by
  unfold profileContribution
  split
  · cases hf : find_question cfg p.1 with
    | none => simp
    | some q =>
      have hq : q ∈ get_all_questions cfg := List.mem_of_find?_eq_some hf
      have : (0 : ℚ) ≤ (q.weight : ℚ) := by exact_mod_cast hw q hq
      positivity
  · exact le_refl 0

/-- C1: `calculate_profile_score` returns, for every category, twice the
sum over ledger items of `question.weight / 10` — taken over recorded
responses whose answer is truthy and whose two-segment dotted prefix is in
the eleven-entry category table (the weight being that of the configured
question the id names) — clamped at the configured per-category maximum;
items failing the conditions contribute nothing. -/
theorem C1_profile_score (cfg : Config) (l : Ledger) (c : Category) :
    calculate_profile_score cfg l c = spec_profile_score cfg l c :=
  calculate_profile_score_eq_spec cfg l c

/-- C5: when every configured question weight and every configured
per-category maximum is non-negative, each category score is between 0 and
that category's configured maximum. -/
theorem C5_profile_score_bounds (cfg : Config) (l : Ledger)
    (hw : ∀ q ∈ get_all_questions cfg, 0 ≤ q.weight)
    (hm : ∀ c : Category, 0 ≤ cfg.weight_distribution c) (c : Category) :
    0 ≤ calculate_profile_score cfg l c ∧
      calculate_profile_score cfg l c ≤ cfg.weight_distribution c := by
  rw [calculate_profile_score_eq_spec]
  unfold spec_profile_score
  constructor
  · apply le_min _ (hm c)
    have hsum : 0 ≤ (l.map (profileContribution cfg c)).sum := by
      apply List.sum_nonneg
      intro x hx
      obtain ⟨p, _, rfl⟩ := List.mem_map.mp hx
      exact profileContribution_nonneg cfg c p hw
    linarith
  · exact min_le_right _ _

/-- Witness for C5 at a concrete configuration and ledger. -/
theorem C5_witness :
    (∀ q ∈ get_all_questions sampleConfig, 0 ≤ q.weight) ∧
    (∀ c : Category, 0 ≤ sampleConfig.weight_distribution c) ∧
    (0 ≤ calculate_profile_score sampleConfig sampleLedger Category.content_goals ∧
      calculate_profile_score sampleConfig sampleLedger Category.content_goals ≤
        sampleConfig.weight_distribution Category.content_goals) :=
  have hw : ∀ q ∈ get_all_questions sampleConfig, 0 ≤ q.weight := by decide
  have hm : ∀ c : Category, 0 ≤ sampleConfig.weight_distribution c := by decide
  ⟨hw, hm, C5_profile_score_bounds sampleConfig sampleLedger hw hm Category.content_goals⟩

lemma pyDictGet_set_self {α : Type} (l : List (String × α)) (k : String) (v : α) :
    pyDictGet (pyDictSet l k v) k = some v := by
  induction l with
  | nil => simp [pyDictSet, pyDictGet]
  | cons p rest ih =>
    obtain ⟨k', v'⟩ := p
    by_cases h : k' = k
    · simp [pyDictSet, pyDictGet, h]
    · simp [pyDictSet, pyDictGet, h, ih]

lemma pyDictSet_set_same_length {α : Type} (l : List (String × α)) (k : String) (v1 v2 : α) :
    (pyDictSet (pyDictSet l k v1) k v2).length = (pyDictSet l k v1).length := by
  induction l with
  | nil => simp [pyDictSet]
  | cons p rest ih =>
    obtain ⟨k', v'⟩ := p
    by_cases h : k' = k
    · simp [pyDictSet, h]
    · simp [pyDictSet, h, ih]

/-- C6: `submit_response` returns `True` for any non-empty question id
and present value; resubmitting the same id keeps only the later value,
detail and timestamp and does not grow the ledger. -/
theorem C6_submit_overwrites (question_id : String) (hq : question_id ≠ "")
    (v1 v2 : Value) (d1 d2 : Option String) (t1 t2 : Nat) (l : Ledger) :
    (submit_response l question_id v1 d1 t1).1 = true ∧
    pyDictGet (submit_response (submit_response l question_id v1 d1 t1).2
        question_id v2 d2 t2).2 question_id =
      some { question_id := question_id, response := v2,
             additional_details := d2, timestamp := t2 } ∧
    (submit_response (submit_response l question_id v1 d1 t1).2
        question_id v2 d2 t2).2.length =
      (submit_response l question_id v1 d1 t1).2.length := by
  refine ⟨rfl, ?_, ?_⟩
  · exact pyDictGet_set_self _ _ _
  · exact pyDictSet_set_same_length l question_id _ _

/-- Witness for C6 at a concrete double submission. -/
theorem C6_witness :
    ("q1.1.1" : String) ≠ "" ∧
    pyDictGet (submit_response (submit_response [] "q1.1.1" (.vstr "교육") none 1).2
        "q1.1.1" (.vstr "설득") (some "detail") 2).2 "q1.1.1" =
      some { question_id := "q1.1.1", response := .vstr "설득",
             additional_details := some "detail", timestamp := 2 } ∧
    (submit_response (submit_response [] "q1.1.1" (.vstr "교육") none 1).2
        "q1.1.1" (.vstr "설득") (some "detail") 2).2.length =
      (submit_response [] "q1.1.1" (.vstr "교육") none 1).2.length :=
  have hq : ("q1.1.1" : String) ≠ "" := by decide
  ⟨hq, (C6_submit_overwrites "q1.1.1" hq (.vstr "교육") (.vstr "설득") none (some "detail") 1 2 []).2⟩

/-- C7: the progress percentage is the count of required questions present
in the ledger over the total count of required questions, times 100; it is
100 when every required question is answered and 100 when there are no
required questions. -/
theorem C7_progress (cfg : Config) (l : Ledger) :
    (required_questions cfg ≠ [] →
      get_progress_percentage cfg l =
        ((answered_required cfg l : ℚ) / ((required_questions cfg).length : ℚ)) * 100) ∧
    (required_questions cfg = [] → get_progress_percentage cfg l = 100) ∧
    ((∀ q ∈ required_questions cfg, (pyDictGet l q.question_id).isSome = true) →
      get_progress_percentage cfg l = 100) := by
  refine ⟨?_, ?_, ?_⟩
  · intro hne
    unfold get_progress_percentage
    rw [if_neg]
    simpa using hne
  · intro he
    unfold get_progress_percentage
    rw [if_pos]
    simp [he]
  · intro hall
    by_cases he : required_questions cfg = []
    · unfold get_progress_percentage
      rw [if_pos]
      simp [he]
    · unfold get_progress_percentage
      rw [if_neg (by simpa using he)]
      have hfull : answered_required cfg l = (required_questions cfg).length := by
        unfold answered_required
        rw [List.filter_eq_self.mpr hall]
      rw [hfull]
      have hnz : ((required_questions cfg).length : ℚ) ≠ 0 := by
        simpa [List.length_eq_zero] using he
      rw [div_self hnz]
      ring

/-- Witness for C7: with both required questions of `sampleConfig`
answered in `sampleLedger`, progress is exactly 100. -/
theorem C7_witness :
    (∀ q ∈ required_questions sampleConfig,
      (pyDictGet sampleLedger q.question_id).isSome = true) ∧
    get_progress_percentage sampleConfig sampleLedger = 100 :=
  have hall : ∀ q ∈ required_questions sampleConfig,
      (pyDictGet sampleLedger q.question_id).isSome = true := by decide
  ⟨hall, (C7_progress sampleConfig sampleLedger).2.2 hall⟩

/-- C9: the response-submission endpoint answers 400 exactly when the
question id is missing or empty or the response value is absent (`None`);
a present falsy value such as `False` or `0` is recorded normally, since
the presence check is an is-not-None check. -/
theorem C9_route_validation (question_id : Option String) (response : Option Value)
    (d : Option String) (now : Nat) (l : Ledger) :
    ((submit_response_route question_id response d now l).1 = 400 ↔
      (question_id = none ∨ question_id = some "" ∨ response = none)) ∧
    (∀ q v, question_id = some q → q ≠ "" → response = some v →
      submit_response_route question_id response d now l =
        (200, true, pyDictSet l q
          { question_id := q, response := v,
            additional_details := d, timestamp := now })) := by
  constructor
  · cases question_id with
    | none => simp [submit_response_route]
    | some q =>
      cases response with
      | none => simp [submit_response_route]
      | some v =>
        by_cases hq : q = ""
        · subst hq; simp [submit_response_route]
        · simp [submit_response_route, submit_response, hq]
  · rintro q v rfl hq rfl
    simp [submit_response_route, submit_response, hq]

/-- Witness for C9: a numeric `0` response to a non-empty question id is
accepted and recorded. -/
theorem C9_witness :
    (some "q4.1.1" : Option String) = some "q4.1.1" ∧ ("q4.1.1" : String) ≠ "" ∧
    (some (Value.vnum 0) : Option Value) = some (Value.vnum 0) ∧
    submit_response_route (some "q4.1.1") (some (Value.vnum 0)) none 9 [] =
      (200, true, pyDictSet [] "q4.1.1"
        { question_id := "q4.1.1", response := Value.vnum 0,
          additional_details := none, timestamp := 9 }) :=
  have hq : ("q4.1.1" : String) ≠ "" := by decide
  ⟨rfl, hq, rfl,
    (C9_route_validation (some "q4.1.1") (some (Value.vnum 0)) none 9 []).2
      "q4.1.1" (Value.vnum 0) rfl hq rfl⟩

lemma style_match_factor_cases (l : Ledger) (t : Template) (s : ℚ)
    (h : style_match_factor l t = some s) : s = 0 ∨ s = 25 := by
  unfold style_match_factor at h
  cases hg : pyDictGet l "q2.1.1" with
  | none => simp only [hg] at h; left; exact (Option.some.inj h).symm
  | some e =>
    simp only [hg] at h
    cases hr : e.response with
    | vstr str =>
      simp only [hr] at h
      by_cases hc : t.style_tags.contains (pyLower str) = true
      · right; rw [if_pos hc] at h; exact (Option.some.inj h).symm
      · left; rw [if_neg hc] at h; exact (Option.some.inj h).symm
    | vbool b => simp [hr] at h
    | vnum n => simp [hr] at h
    | vlist xs => simp [hr] at h

lemma color_match_factor_cases (l : Ledger) (t : Template) :
    color_match_factor l t = 0 ∨ color_match_factor l t = 20 := by
  unfold color_match_factor
  cases pyDictGet l "q1.3.2" with
  | none => left; rfl
  | some e =>
    by_cases hc : t.color_schemes.any (fun s => e.response.eqStr s) = true
    · right; simp [hc]
    · left; simp [hc]

lemma functionality_match_factor_cases (l : Ledger) (t : Template) :
    functionality_match_factor l t = 0 ∨ functionality_match_factor l t = 30 := by
  unfold functionality_match_factor
  cases pyDictGet l "q1.1.1" with
  | none => left; rfl
  | some e =>
    by_cases hc : t.suitable_for.any (fun s => e.response.eqStr s) = true
    · right; simp [hc]
    · left; simp [hc]

lemma technical_compatibility_factor_cases (l : Ledger) (t : Template) :
    technical_compatibility_factor l t = 0 ∨ technical_compatibility_factor l t = 25 := by
  unfold technical_compatibility_factor
  cases pyDictGet l "q2.2.1" with
  | none => left; rfl
  | some e =>
    by_cases hc : t.compatible_versions.any (fun s => e.response.eqStr s) = true
    · right; simp [hc]
    · left; simp [hc]

/-- Any produced match score lies in [0, 100]. -/
lemma match_score_in_range (l : Ledger) (t : Template) (sc : ℚ)
    (h : calculate_template_match_score l t = some sc) : 0 ≤ sc ∧ sc ≤ 100 := by
  unfold calculate_template_match_score at h
  cases hs : style_match_factor l t with
  | none => rw [hs] at h; cases h
  | some s =>
    rw [hs] at h
    have hsc : sc = min (s + color_match_factor l t + functionality_match_factor l t +
        technical_compatibility_factor l t) 100 := (Option.some.inj h).symm
    have h1 : 0 ≤ s := by rcases style_match_factor_cases l t s hs with h' | h' <;> rw [h'] <;> norm_num
    have h2 : 0 ≤ color_match_factor l t := by
      rcases color_match_factor_cases l t with h' | h' <;> rw [h'] <;> norm_num
    have h3 : 0 ≤ functionality_match_factor l t := by
      rcases functionality_match_factor_cases l t with h' | h' <;> rw [h'] <;> norm_num
    have h4 : 0 ≤ technical_compatibility_factor l t := by
      rcases technical_compatibility_factor_cases l t with h' | h' <;> rw [h'] <;> norm_num
    constructor
    · rw [hsc]; apply le_min (by linarith) (by norm_num)
    · rw [hsc]; exact min_le_right _ _

/-- C2: the template match score is the sum of the four fixed factor
contributions clamped at 100, is at most 100, and equals exactly 100 when
all four checks are satisfied. -/
theorem C2_template_match_score (l : Ledger) (t : Template) (s : ℚ)
    (hs : style_match_factor l t = some s) :
    calculate_template_match_score l t =
      some (min (s + color_match_factor l t + functionality_match_factor l t +
        technical_compatibility_factor l t) 100) ∧
    (∀ sc, calculate_template_match_score l t = some sc → 0 ≤ sc ∧ sc ≤ 100) ∧
    (s = 25 → color_match_factor l t = 20 → functionality_match_factor l t = 30 →
      technical_compatibility_factor l t = 25 →
      calculate_template_match_score l t = some 100) := by
  refine ⟨?_, fun sc h => match_score_in_range l t sc h, ?_⟩
  · unfold calculate_template_match_score
    rw [hs]
  · intro h1 h2 h3 h4
    unfold calculate_template_match_score
    rw [hs, h1, h2, h3, h4]
    norm_num

/-- Witness for C2: the full-match ledger gives the first mock template a
score of exactly 100. -/
theorem C2_witness :
    style_match_factor fullMatchLedger (MOCK_TEMPLATES.get ⟨0, by decide⟩) = some 25 ∧
    calculate_template_match_score fullMatchLedger (MOCK_TEMPLATES.get ⟨0, by decide⟩) =
      some 100 :=
  have hs : style_match_factor fullMatchLedger (MOCK_TEMPLATES.get ⟨0, by decide⟩) =
      some 25 := by decide
  ⟨hs, (C2_template_match_score fullMatchLedger (MOCK_TEMPLATES.get ⟨0, by decide⟩) 25 hs).2.2
    rfl (by decide) (by decide) (by decide)⟩

/-- C8: the template match score depends only on the ledger entries at
the four question ids `q2.1.1`, `q1.3.2`, `q1.1.1` and `q2.2.1`; two
ledgers agreeing there (including on absence) score every template
identically. -/
theorem C8_match_noninterference (t : Template) (l1 l2 : Ledger)
    (h1 : pyDictGet l1 "q2.1.1" = pyDictGet l2 "q2.1.1")
    (h2 : pyDictGet l1 "q1.3.2" = pyDictGet l2 "q1.3.2")
    (h3 : pyDictGet l1 "q1.1.1" = pyDictGet l2 "q1.1.1")
    (h4 : pyDictGet l1 "q2.2.1" = pyDictGet l2 "q2.2.1") :
    calculate_template_match_score l1 t = calculate_template_match_score l2 t := by
  unfold calculate_template_match_score style_match_factor color_match_factor
    functionality_match_factor technical_compatibility_factor
  rw [h1, h2, h3, h4]

/-- Witness for C8: a ledger holding only an unrelated question id scores
like the empty ledger. -/
theorem C8_witness :
    pyDictGet unrelatedLedger "q2.1.1" = pyDictGet ([] : Ledger) "q2.1.1" ∧
    pyDictGet unrelatedLedger "q1.3.2" = pyDictGet ([] : Ledger) "q1.3.2" ∧
    pyDictGet unrelatedLedger "q1.1.1" = pyDictGet ([] : Ledger) "q1.1.1" ∧
    pyDictGet unrelatedLedger "q2.2.1" = pyDictGet ([] : Ledger) "q2.2.1" ∧
    calculate_template_match_score unrelatedLedger (MOCK_TEMPLATES.get ⟨1, by decide⟩) =
      calculate_template_match_score ([] : Ledger) (MOCK_TEMPLATES.get ⟨1, by decide⟩) :=
  have h1 : pyDictGet unrelatedLedger "q2.1.1" = pyDictGet ([] : Ledger) "q2.1.1" := by decide
  have h2 : pyDictGet unrelatedLedger "q1.3.2" = pyDictGet ([] : Ledger) "q1.3.2" := by decide
  have h3 : pyDictGet unrelatedLedger "q1.1.1" = pyDictGet ([] : Ledger) "q1.1.1" := by decide
  have h4 : pyDictGet unrelatedLedger "q2.2.1" = pyDictGet ([] : Ledger) "q2.2.1" := by decide
  ⟨h1, h2, h3, h4,
    C8_match_noninterference (MOCK_TEMPLATES.get ⟨1, by decide⟩) unrelatedLedger [] h1 h2 h3 h4⟩

lemma isUpper_eq_true_iff (c : Char) :
    c.isUpper = true ↔ 65 ≤ c.val.toNat ∧ c.val.toNat ≤ 90 := by
  simp only [Char.isUpper, Bool.and_eq_true, decide_eq_true_eq, ge_iff_le,
    UInt32.le_def, BitVec.le_def]
  exact Iff.rfl

lemma toLower_isUpper_false (c : Char) : (Char.toLower c).isUpper = false := by
  rw [Char.toLower]
  split
  case isTrue h =>
    have hv : (Char.toNat c + 32).isValidChar := Or.inl (by
      have : Char.toNat c ≤ 90 := h.2
      omega)
    rw [Char.ofNat, dif_pos hv]
    rw [Bool.eq_false_iff]
    intro hup
    rw [isUpper_eq_true_iff] at hup
    have hval : (Char.ofNatAux (Char.toNat c + 32) hv).val.toNat = Char.toNat c + 32 := rfl
    rw [hval] at hup
    have h65 : 65 ≤ Char.toNat c := h.1
    omega
  case isFalse h =>
    rw [Bool.eq_false_iff]
    intro hup
    rw [isUpper_eq_true_iff] at hup
    exact h ⟨hup.1, hup.2⟩

/-- The lowercased answer can never equal a tag containing an uppercase
basic-latin letter. -/
lemma pyLower_ne_of_upper (tag : String) (h : tag.data.any Char.isUpper = true)
    (s : String) : pyLower s ≠ tag := by
  intro he
  obtain ⟨c, hc, hcu⟩ := List.any_eq_true.mp h
  have hdata : (pyLower s).data = tag.data := congrArg String.data he
  rw [← hdata] at hc
  unfold pyLower at hc
  simp only [String.data] at hc
  obtain ⟨c0, _, rfl⟩ := List.mem_map.mp hc
  rw [toLower_isUpper_false c0] at hcu
  cases hcu

lemma any_eqStr_eq_contains (xs : List String) (s : String) :
    xs.any (fun x => Value.eqStr (.vstr s) x) = xs.contains s := by
  induction xs with
  | nil => rfl
  | cons x rest ih =>
    rw [List.any_cons, List.contains_cons, ih]
    rfl

/-- C10: the style check lowercases only the user's answer and compares it
verbatim against the style tags, so an answer whose lowercase form equals
a tag matches while a tag containing an uppercase letter can never be
matched; the color, goal and version checks use exact membership of the
raw answer with no lowercasing. -/
theorem C10_style_case_asymmetry (l : Ledger) (t : Template) :
    (∀ e s, pyDictGet l "q2.1.1" = some e → e.response = .vstr s →
      style_match_factor l t =
        some (if t.style_tags.contains (pyLower s) = true then 25 else 0)) ∧
    (∀ tag ∈ t.style_tags, tag.data.any Char.isUpper = true →
      ∀ s : String, pyLower s ≠ tag) ∧
    ((∀ tag ∈ t.style_tags, tag.data.any Char.isUpper = true) →
      ∀ e s, pyDictGet l "q2.1.1" = some e → e.response = .vstr s →
      style_match_factor l t = some 0) ∧
    (∀ e s, pyDictGet l "q1.3.2" = some e → e.response = .vstr s →
      color_match_factor l t = (if t.color_schemes.contains s = true then 20 else 0)) ∧
    (∀ e s, pyDictGet l "q1.1.1" = some e → e.response = .vstr s →
      functionality_match_factor l t = (if t.suitable_for.contains s = true then 30 else 0)) ∧
    (∀ e s, pyDictGet l "q2.2.1" = some e → e.response = .vstr s →
      technical_compatibility_factor l t =
        (if t.compatible_versions.contains s = true then 25 else 0)) := by
  refine ⟨?_, ?_, ?_, ?_, ?_, ?_⟩
  · intro e s hg hr
    unfold style_match_factor
    simp only [hg, hr]
  · intro tag _ hu s
    exact pyLower_ne_of_upper tag hu s
  · intro hall e s hg hr
    have hnm : pyLower s ∉ t.style_tags := fun hm =>
      pyLower_ne_of_upper (pyLower s) (hall (pyLower s) hm) s rfl
    have hcf : t.style_tags.contains (pyLower s) = false := by
      simpa using hnm
    unfold style_match_factor
    simp only [hg, hr, hcf]
    simp
  · intro e s hg hr
    unfold color_match_factor
    simp only [hg]
    rw [hr, any_eqStr_eq_contains]
  · intro e s hg hr
    unfold functionality_match_factor
    simp only [hg]
    rw [hr, any_eqStr_eq_contains]
  · intro e s hg hr
    unfold technical_compatibility_factor
    simp only [hg]
    rw [hr, any_eqStr_eq_contains]

/-- Witness for C10: a template whose every style tag contains an
uppercase letter is never style-matched, here against the lowercase answer
"allcaps". -/
theorem C10_witness :
    (∀ tag ∈ upperTagTemplate.style_tags, tag.data.any Char.isUpper = true) ∧
    pyDictGet upperLedger "q2.1.1" = some upperAnswerEntry ∧
    upperAnswerEntry.response = Value.vstr "allcaps" ∧
    style_match_factor upperLedger upperTagTemplate = some 0 :=
  have hall : ∀ tag ∈ upperTagTemplate.style_tags, tag.data.any Char.isUpper = true := by
    decide
  ⟨hall, rfl, rfl,
    (C10_style_case_asymmetry upperLedger upperTagTemplate).2.2.1 hall
      upperAnswerEntry "allcaps" rfl rfl⟩

lemma mem_insertByScoreDesc (r x : Recommendation) (l : List Recommendation) :
    x ∈ insertByScoreDesc r l ↔ x = r ∨ x ∈ l := by
  induction l with
  | nil => simp [insertByScoreDesc]
  | cons y ys ih =>
    unfold insertByScoreDesc
    by_cases h : y.match_score ≤ r.match_score
    · simp [h]
    · simp [h, ih]
      tauto

lemma pairwise_insertByScoreDesc (r : Recommendation) (l : List Recommendation)
    (h : List.Pairwise (fun a b => b.match_score ≤ a.match_score) l) :
    List.Pairwise (fun a b => b.match_score ≤ a.match_score) (insertByScoreDesc r l) := by
  induction l with
  | nil => simp [insertByScoreDesc]
  | cons y ys ih =>
    unfold insertByScoreDesc
    rcases List.pairwise_cons.mp h with ⟨hy, hys⟩
    by_cases hle : y.match_score ≤ r.match_score
    · rw [if_pos hle]
      refine List.pairwise_cons.mpr ⟨?_, h⟩
      intro z hz
      rcases List.mem_cons.mp hz with rfl | hz2
      · exact hle
      · exact le_trans (hy z hz2) hle
    · rw [if_neg hle]
      refine List.pairwise_cons.mpr ⟨?_, ih hys⟩
      intro z hz
      rcases (mem_insertByScoreDesc r z ys).mp hz with rfl | hz
      · exact le_of_lt (lt_of_not_le hle)
      · exact hy z hz

lemma filter_insertByScoreDesc (r : Recommendation) (l : List Recommendation) (q : ℚ) :
    (insertByScoreDesc r l).filter (fun x => decide (x.match_score = q)) =
      (r :: l).filter (fun x => decide (x.match_score = q)) := by
  induction l with
  | nil => rfl
  | cons y ys ih =>
    unfold insertByScoreDesc
    by_cases hle : y.match_score ≤ r.match_score
    · rw [if_pos hle]
    · rw [if_neg hle]
      have hlt : r.match_score < y.match_score := lt_of_not_le hle
      have hry : r.match_score ≠ y.match_score := ne_of_lt hlt
      by_cases hy : y.match_score = q
      · have hr0 : r.match_score ≠ q := fun hh => hry (hh.trans hy.symm)
        simp [List.filter_cons, hy, hr0, ih]
      · simp [List.filter_cons, hy, ih]

lemma sortByScoreDesc_pairwise (l : List Recommendation) :
    List.Pairwise (fun a b => b.match_score ≤ a.match_score) (sortByScoreDesc l) := by
  induction l with
  | nil => simp [sortByScoreDesc]
  | cons y ys ih => exact pairwise_insertByScoreDesc y (sortByScoreDesc ys) ih

lemma sortByScoreDesc_filter (l : List Recommendation) (q : ℚ) :
    (sortByScoreDesc l).filter (fun x => decide (x.match_score = q)) =
      l.filter (fun x => decide (x.match_score = q)) := by
  induction l with
  | nil => rfl
  | cons y ys ih =>
    show (insertByScoreDesc y (sortByScoreDesc ys)).filter _ = _
    rw [filter_insertByScoreDesc]
    simp only [List.filter_cons, ih]

lemma mem_sortByScoreDesc (x : Recommendation) (l : List Recommendation) :
    x ∈ sortByScoreDesc l ↔ x ∈ l := by
  induction l with
  | nil => simp [sortByScoreDesc]
  | cons y ys ih =>
    show x ∈ insertByScoreDesc y (sortByScoreDesc ys) ↔ _
    rw [mem_insertByScoreDesc]
    simp [ih]


lemma buildRecommendations_mem (l : Ledger) (db : List Template)
    (recs : List Recommendation) (h : buildRecommendations l db = some recs)
    (r : Recommendation) (hr : r ∈ recs) :
    ∃ t ∈ db, buildRecommendation l t = some r := by
  induction db generalizing recs with
  | nil =>
    unfold buildRecommendations at h
    cases h
    cases hr
  | cons t ts ih =>
    unfold buildRecommendations at h
    cases hb : buildRecommendation l t with
    | none => rw [hb] at h; cases h
    | some r0 =>
      rw [hb] at h
      cases hbs : buildRecommendations l ts with
      | none => rw [hbs] at h; cases h
      | some rs =>
        rw [hbs] at h
        cases h
        rcases List.mem_cons.mp hr with rfl | hr2
        · exact ⟨t, List.mem_cons_self t ts, hb⟩
        · obtain ⟨t2, ht2, hbt2⟩ := ih rs hbs hr2
          exact ⟨t2, List.mem_cons_of_mem t ht2, hbt2⟩

lemma buildRecommendation_score_range (l : Ledger) (t : Template) (r : Recommendation)
    (h : buildRecommendation l t = some r) : 0 ≤ r.match_score ∧ r.match_score ≤ 100 := by
  unfold buildRecommendation at h
  cases hc : calculate_template_match_score l t with
  | none => rw [hc] at h; cases h
  | some sc =>
    rw [hc] at h
    cases h
    exact match_score_in_range l t sc hc

/-- C4: `generate_recommendations` returns the first ten entries of the
full ranked list it stores; the stored list is sorted by descending match
score, ties keep catalog order (stable: filtering at any score value
preserves the catalog-ordered sublist), and every score lies in [0, 100]. -/
theorem C4_recommendations_ranked (l : Ledger) (db : List Template)
    (ret full : List Recommendation)
    (h : generate_recommendations l db = some (ret, full)) :
    ret = full.take 10 ∧ ret.length ≤ 10 ∧
    List.Pairwise (fun a b => b.match_score ≤ a.match_score) full ∧
    (∀ r ∈ full, 0 ≤ r.match_score ∧ r.match_score ≤ 100) ∧
    ∃ recs, buildRecommendations l db = some recs ∧ full = sortByScoreDesc recs ∧
      ∀ q : ℚ, full.filter (fun x => decide (x.match_score = q)) =
        recs.filter (fun x => decide (x.match_score = q)) := by
  unfold generate_recommendations at h
  cases hb : buildRecommendations l db with
  | none => rw [hb] at h; cases h
  | some recs =>
    simp only [hb, Option.some.injEq, Prod.mk.injEq] at h
    obtain ⟨hret, hfull⟩ := h
    subst hfull
    subst hret
    refine ⟨rfl, ?_, sortByScoreDesc_pairwise recs, ?_, recs, rfl, rfl, ?_⟩
    · simpa [List.length_take] using min_le_left 10 (sortByScoreDesc recs).length
    · intro r hr
      have hr2 : r ∈ recs := (mem_sortByScoreDesc r recs).mp hr
      obtain ⟨t, _, hbt⟩ := buildRecommendations_mem l db recs hb r hr2
      exact buildRecommendation_score_range l t r hbt
    · intro q
      exact sortByScoreDesc_filter recs q

/-- Witness for C4: the empty ledger ranks both mock templates with score
0 in catalog order. -/
theorem C4_witness :
    generate_recommendations [] MOCK_TEMPLATES = some (mockRecsEmpty, mockRecsEmpty) ∧
    mockRecsEmpty.length ≤ 10 ∧
    List.Pairwise (fun a b => b.match_score ≤ a.match_score) mockRecsEmpty :=
  have h : generate_recommendations [] MOCK_TEMPLATES =
      some (mockRecsEmpty, mockRecsEmpty) := by
    norm_num [generate_recommendations, buildRecommendations, buildRecommendation,
      calculate_template_match_score, style_match_factor, color_match_factor,
      functionality_match_factor, technical_compatibility_factor, MOCK_TEMPLATES,
      pyDictGet, sortByScoreDesc, insertByScoreDesc, mockRecsEmpty]
  ⟨h, (C4_recommendations_ranked [] MOCK_TEMPLATES mockRecsEmpty mockRecsEmpty h).2.1,
    (C4_recommendations_ranked [] MOCK_TEMPLATES mockRecsEmpty mockRecsEmpty h).2.2.1⟩

/-- C3 counterexample: with no timeline response recorded at all, the
plan's phases and resources stay empty and no customization level is set,
even though the configured standard one-week roadmap has non-empty steps
— contradicting the claimed fallback for the absent case. -/
theorem C3_counterexample :
    generate_implementation_plan cfgC3 [] = some
      { timeline := .vstr "1주", experience_level := .vstr "중급자",
        phases := [], resources_needed := [], estimated_hours := 0,
        customization_level := none } ∧
    (pyDictGet cfgC3RoadmapTable "standard_timeline_1week").map Roadmap.steps =
      some (some ["구조 설계", "디자인"]) ∧
    ([] : List String) ≠ ["구조 설계", "디자인"] := by
  refine ⟨rfl, rfl, ?_⟩
  decide

/-- C3 (amended): when a timeline response is recorded with a hashable
value, `generate_implementation_plan` maps it through the fixed
three-entry table — the standard one-week key being the fallback for any
unrecognized recorded hashable value — and returns that roadmap's step
list, a single-element resource list and a customization-level label;
a recorded list-valued answer is unhashable, so the `dict.get` raises
and no plan is produced; when no timeline response is recorded the
returned plan keeps empty phases, an empty resource list and no
customization-level label. -/
theorem C3_plan_selection (cfg : Config) (l : Ledger) :
    (pyDictGet l "q5.1.1" = none →
      generate_implementation_plan cfg l = some
        { timeline := .vstr "1주", experience_level := expDefault l,
          phases := [], resources_needed := [], estimated_hours := 0,
          customization_level := none }) ∧
    (∀ e key ph sec table, pyDictGet l "q5.1.1" = some e →
      timelineKey e.response = some key →
      cfg.workflow_phases.get? 4 = some ph →
      ph.sections.get? 0 = some sec →
      sec.implementation_roadmaps = some table →
      generate_implementation_plan cfg l = some
        { timeline := e.response, experience_level := expDefault l,
          phases := (roadmapFor table key).steps.getD [],
          resources_needed := [(roadmapFor table key).resources.getD ""],
          estimated_hours := 0,
          customization_level :=
            some ((roadmapFor table key).customization_level.getD "moderate") }) ∧
    (∀ e xs, pyDictGet l "q5.1.1" = some e → e.response = .vlist xs →
      generate_implementation_plan cfg l = none) ∧
    (timelineKey (.vstr "1일") = some "tight_timeline_1day" ∧
      timelineKey (.vstr "1주") = some "standard_timeline_1week" ∧
      timelineKey (.vstr "1개월") = some "extended_timeline_1month" ∧
      (∀ s : String, s ≠ "1일" → s ≠ "1주" → s ≠ "1개월" →
        timelineKey (.vstr s) = some "standard_timeline_1week") ∧
      (∀ b : Bool, timelineKey (.vbool b) = some "standard_timeline_1week") ∧
      (∀ n : Int, timelineKey (.vnum n) = some "standard_timeline_1week") ∧
      (∀ xs : List String, timelineKey (.vlist xs) = none)) := by
  refine ⟨?_, ?_, ?_, by decide, by decide, by decide, ?_, ?_, ?_, ?_⟩
  · intro h
    unfold generate_implementation_plan
    simp only [h]
    unfold expDefault
    rfl
  · intro e key ph sec table he hkey hph hsec ht
    unfold generate_implementation_plan
    simp only [he, hkey, hph, hsec, ht]
    unfold expDefault roadmapFor
    rfl
  · intro e xs he hr
    unfold generate_implementation_plan
    have hkey : timelineKey e.response = none := by
      rw [hr]
      rfl
    simp only [he, hkey]
  · intro s h1 h2 h3
    show (if Value.vstr s = Value.vstr "1일" then some "tight_timeline_1day"
      else if Value.vstr s = Value.vstr "1주" then some "standard_timeline_1week"
      else if Value.vstr s = Value.vstr "1개월" then some "extended_timeline_1month"
      else some "standard_timeline_1week") = some "standard_timeline_1week"
    rw [if_neg, if_neg, if_neg]
    · intro hh
      exact h3 (Value.vstr.inj hh)
    · intro hh
      exact h2 (Value.vstr.inj hh)
    · intro hh
      exact h1 (Value.vstr.inj hh)
  · intro b
    rfl
  · intro n
    rfl
  · intro xs
    rfl

/-- Witness for the amended C3: the "1일" answer selects the tight
one-day roadmap of the concrete configuration. -/
theorem C3_witness :
    pyDictGet timelineLedger "q5.1.1" = some tlEntry ∧
    timelineKey tlEntry.response = some "tight_timeline_1day" ∧
    cfgC3.workflow_phases.get? 4 = some cfgC3Phase5 ∧
    cfgC3Phase5.sections.get? 0 = some cfgC3Sec ∧
    cfgC3Sec.implementation_roadmaps = some cfgC3RoadmapTable ∧
    generate_implementation_plan cfgC3 timelineLedger = some
      { timeline := .vstr "1일", experience_level := .vstr "중급자",
        phases := ["긴급 구조", "빠른 디자인"], resources_needed := ["집중 작업"],
        estimated_hours := 0, customization_level := some "minimal" } := by
  refine ⟨rfl, by decide, rfl, rfl, rfl, ?_⟩
  have happ := (C3_plan_selection cfgC3 timelineLedger).2.1 tlEntry "tight_timeline_1day"
    cfgC3Phase5 cfgC3Sec cfgC3RoadmapTable rfl (by decide) rfl rfl rfl
  rw [happ]
  decide
